import Mathlib

/-!  Shallow embedding of the Trading212 REST client
(`src/trading212_rest/__init__.py`).

Python values that flow through the validators are modelled by `PyVal`
(floats are modelled as rationals; `bool` is a subtype of `int` in Python,
so booleans count as numbers).  Exceptions are modelled by `Except` with a
`PyError` distinguishing `ValueError` from `TypeError`.  A network request
is modelled by the request value a method would hand to the HTTP layer:
a method that returns `Except.error` has rejected its arguments before any
network call; a method that returns `Except.ok req` issues exactly the
request `req`. -/

/-- Python exception kinds raised by the validators of the client. -/
inductive PyError where
  | valueError (msg : String)
  | typeError (msg : String)
deriving DecidableEq

/-- Python values reaching `_validate_instrument_shares`: strings, ints,
floats (modelled as rationals), booleans, `None` and dicts (modelled as
association lists in insertion order, keys of arbitrary value type). -/
inductive PyVal where
  | str (s : String)
  | int (n : Int)
  | float (q : ℚ)
  | bool (b : Bool)
  | none_
  | dict (entries : List (PyVal × PyVal))

/-- Python `isinstance(v, str)`. -/
def PyVal.is_str : PyVal → Bool
  | .str _ => true
  | _ => false

/-- Python `isinstance(v, (int, float))`; `bool` is a subclass of `int`. -/
def PyVal.is_number : PyVal → Bool
  | .int _ => true
  | .float _ => true
  | .bool _ => true
  | _ => false

/-- Numeric value of a Python number (`True` is `1`, `False` is `0`). -/
def PyVal.as_num : PyVal → ℚ
  | .int n => n
  | .float q => q
  | .bool b => if b then 1 else 0
  | _ => 0

/-- Source `__init__`: the host is the live URL in both branches of the
conditional on `demo`. -/
def init_host (demo : Bool) : String :=
  if demo then "https://live.trading212.com" else "https://live.trading212.com"

/-- Python `s[-4:]` for the repr mask. -/
def take_last4 (s : String) : String :=
  String.mk (s.toList.drop (s.toList.length - 4))

/-- Python `format` of a `bool`. -/
def py_bool_repr (b : Bool) : String :=
  if b then "True" else "False"

/-- Source `__repr__` as a function of the stored key and host. -/
def repr_str (api_key host : String) : String :=
  "Trading212(api_key=****" ++ take_last4 api_key ++
    (", demo=" ++ (py_bool_repr (host == "https://demo.trading212.com") ++ ")"))

/-- Repr of a freshly constructed client. -/
def trading212_repr (api_key : String) (demo : Bool) : String :=
  repr_str api_key (init_host demo)

/-- Source `_validate_time_validity`. -/
def validate_time_validity (time_validity : String) : Except PyError Unit :=
  if time_validity ∈ ["GTC", "DAY"] then .ok ()
  else .error (.valueError "time_validity must be one of GTC or DAY")

/-- Source `_validate_dividend_cash_action`. -/
def validate_dividend_cash_action (dividend_cash_action : String) : Except PyError Unit :=
  if dividend_cash_action ∈ ["REINVEST", "TO_ACCOUNT_CASH"] then .ok ()
  else .error (.valueError "dividendCashAction must be one of REINVEST, TO_ACCOUNT_CASH")

/-- The `valid_icons` list of `_validate_icon`, transcribed verbatim. -/
def valid_icons : List String :=
  ["Home", "PiggyBank", "Iceberg", "Airplane", "RV", "Unicorn", "Whale", "Convertable", "Family",
   "Coins", "Education", "BillsAndCoins", "Bills", "Water", "Wind", "Car", "Briefcase", "Medical",
   "Landscape", "Child", "Vault", "Travel", "Cabin", "Apartments", "Burger", "Bus", "Energy",
   "Factory", "Global", "Leaf", "Materials", "Pill", "Ring", "Shipping", "Storefront", "Tech",
   "Umbrella"]

/-- Source `_validate_icon`. -/
def validate_icon (icon : String) : Except PyError Unit :=
  if icon ∈ valid_icons then .ok ()
  else .error (.valueError "icon must be one of valid_icons")

/-- The per-entry loop of `_validate_instrument_shares`, in dict insertion
order: key must be a string, value must be a number, value must be positive. -/
def validate_entries : List (PyVal × PyVal) → Except PyError Unit
  | [] => .ok ()
  | (k, v) :: rest =>
    if ¬ k.is_str then .error (.typeError "Instrument identifiers must be strings")
    else if ¬ v.is_number then .error (.typeError "Number of shares must be a number")
    else if v.as_num ≤ 0 then .error (.valueError "Number of shares must be greater than zero")
    else validate_entries rest

/-- Source `_validate_instrument_shares`. -/
def validate_instrument_shares (instrument_shares : PyVal) : Except PyError Unit :=
  match instrument_shares with
  | .dict entries =>
    if entries.isEmpty then .error (.valueError "instrument_shares cannot be empty")
    else validate_entries entries
  | _ => .error (.typeError "instrument_shares must be a dictionary")

/-- Split a character list into its leading run of ASCII digits and the rest. -/
def digit_run : List Char → List Char × List Char
  | [] => ([], [])
  | c :: cs =>
    if c.isDigit then
      let (r, rest) := digit_run cs
      (c :: r, rest)
    else ([], c :: cs)

/-- Numeric value of a digit run. -/
def nat_of_digits (ds : List Char) : Nat :=
  ds.foldl (fun a c => 10 * a + (c.toNat - 48)) 0

/-- Gregorian leap year, as `datetime` uses it. -/
def is_leap (y : Nat) : Bool :=
  y % 4 = 0 ∧ (y % 100 ≠ 0 ∨ y % 400 = 0)

/-- Number of days in a month, as `datetime` validates the `day` argument. -/
def days_in_month (y m : Nat) : Nat :=
  if m = 2 then (if is_leap y then 29 else 28)
  else if m ∈ [4, 6, 9, 11] then 30
  else 31

/-- CPython strptime directive `%m` on a digit group: regex `1[0-2]|0[1-9]|[1-9]`. -/
def month_group_ok (len v : Nat) : Bool :=
  decide ((len = 1 ∧ 1 ≤ v ∧ v ≤ 9) ∨ (len = 2 ∧ 1 ≤ v ∧ v ≤ 12))

/-- CPython strptime directive `%d` on a digit group: regex `3[01]|[12]\d|0[1-9]|[1-9]`. -/
def day_group_ok (len v : Nat) : Bool :=
  decide ((len = 1 ∧ 1 ≤ v ∧ v ≤ 9) ∨ (len = 2 ∧ 1 ≤ v ∧ v ≤ 31))

/-- CPython strptime directive `%H` on a digit group: regex `2[0-3]|[0-1]\d|\d`. -/
def hour_group_ok (len v : Nat) : Bool :=
  decide ((len = 1 ∧ v ≤ 9) ∨ (len = 2 ∧ v ≤ 23))

/-- CPython strptime directive `%M` on a digit group: regex `[0-5]\d|\d`. -/
def minute_group_ok (len v : Nat) : Bool :=
  decide ((len = 1 ∧ v ≤ 9) ∨ (len = 2 ∧ v ≤ 59))

/-- CPython strptime directive `%S` on a digit group: regex `6[0-1]|[0-5]\d|\d`. -/
def second_group_ok (len v : Nat) : Bool :=
  decide ((len = 1 ∧ v ≤ 9) ∨ (len = 2 ∧ v ≤ 61))

/-- CPython `datetime.strptime(s, "%Y-%m-%dT%H:%M:%SZ")`: the format string is
compiled to a regex that must match the whole input (digit fields are one or
two digits, except the four-digit year; literal letters match
case-insensitively), and the matched fields must then form a valid
`datetime` (year at least 1, day within the month, seconds below 60).
Returns the parsed `(year, month, day, hour, minute, second)` on success. -/
def strptime_date (s : String) : Option (Nat × Nat × Nat × Nat × Nat × Nat) :=
  let (yd, r1) := digit_run s.toList
  match r1 with
  | '-' :: r2 =>
    let (md, r3) := digit_run r2
    match r3 with
    | '-' :: r4 =>
      let (dd, r5) := digit_run r4
      match r5 with
      | t :: r6 =>
        if t = 'T' ∨ t = 't' then
          let (hd, r7) := digit_run r6
          match r7 with
          | ':' :: r8 =>
            let (mid, r9) := digit_run r8
            match r9 with
            | ':' :: r10 =>
              let (sd, r11) := digit_run r10
              match r11 with
              | [z] =>
                if z = 'Z' ∨ z = 'z' then
                  let y := nat_of_digits yd
                  let mo := nat_of_digits md
                  let d := nat_of_digits dd
                  let h := nat_of_digits hd
                  let mi := nat_of_digits mid
                  let se := nat_of_digits sd
                  if yd.length = 4 ∧ month_group_ok md.length mo ∧
                      day_group_ok dd.length d ∧ hour_group_ok hd.length h ∧
                      minute_group_ok mid.length mi ∧ second_group_ok sd.length se ∧
                      1 ≤ y ∧ d ≤ days_in_month y mo ∧ se ≤ 59 then
                    some (y, mo, d, h, mi, se)
                  else none
                else none
              | _ => none
            | _ => none
          | _ => none
        else none
      | _ => none
    | _ => none
  | _ => none

/-- Source `_validate_date`: `strptime` failures (both the format mismatch and
the `datetime` range check) raise `ValueError`, which the handler replaces
with the fixed message. -/
def validate_date (date_text : String) : Except PyError Unit :=
  match strptime_date date_text with
  | some _ => .ok ()
  | none => .error (.valueError "Incorrect date format, should be YYYY-MM-DDTHH:MM:SSZ")

/-- Modelled from the spec: the literal reading of the format
`YYYY-MM-DDTHH:MM:SSZ` as a fixed-width pattern — four year digits, exactly
two digits for each of month, day, hour, minute and second, uppercase `T`
and `Z` literals, month `01`–`12`, day a valid day of the month, hour at
most `23`, minute and second at most `59`. -/
def spec_date_format_strict (s : String) : Bool :=
  match s.toList with
  | [y1, y2, y3, y4, '-', m1, m2, '-', d1, d2, 'T', h1, h2, ':', i1, i2, ':', s1, s2, 'Z'] =>
    ([y1, y2, y3, y4, m1, m2, d1, d2, h1, h2, i1, i2, s1, s2].all Char.isDigit) &&
      (let y := nat_of_digits [y1, y2, y3, y4]
       let mo := nat_of_digits [m1, m2]
       let d := nat_of_digits [d1, d2]
       decide (1 ≤ y ∧ 1 ≤ mo ∧ mo ≤ 12 ∧ 1 ≤ d ∧ d ≤ days_in_month y mo ∧
         nat_of_digits [h1, h2] ≤ 23 ∧ nat_of_digits [i1, i2] ≤ 59 ∧
         nat_of_digits [s1, s2] ≤ 59))
  | _ => false

/-- A POST request as handed to `_post`: versioned endpoint and form body. -/
structure PostReq where
  endpoint : String
  body : List (String × PyVal)

/-- Source `equity_order_place_limit`: validate the time validity, then POST. -/
def equity_order_place_limit (ticker : String) (quantity : Int) (limit_price : ℚ)
    (time_validity : String) : Except PyError PostReq := do
  validate_time_validity time_validity
  pure { endpoint := "equity/orders/limit",
         body := [("quantity", .int quantity), ("limitPrice", .float limit_price),
                  ("ticker", .str ticker), ("timeValidity", .str time_validity)] }

/-- Source `equity_order_place_stop`. -/
def equity_order_place_stop (ticker : String) (quantity : Int) (stop_price : ℚ)
    (time_validity : String) : Except PyError PostReq := do
  validate_time_validity time_validity
  pure { endpoint := "equity/orders/stop",
         body := [("quantity", .int quantity), ("stopPrice", .float stop_price),
                  ("ticker", .str ticker), ("timeValidity", .str time_validity)] }

/-- Source `equity_order_place_stop_limit`. -/
def equity_order_place_stop_limit (ticker : String) (quantity : Int) (stop_price limit_price : ℚ)
    (time_validity : String) : Except PyError PostReq := do
  validate_time_validity time_validity
  pure { endpoint := "equity/orders/stop_limit",
         body := [("quantity", .int quantity), ("stopPrice", .float stop_price),
                  ("limitPrice", .float limit_price), ("ticker", .str ticker),
                  ("timeValidity", .str time_validity)] }

/-- Source `pie_create`: the four validators run in this order before the POST. -/
def pie_create (dividend_cash_action : String) (end_date : String) (goal : Int) (icon : String)
    (instrument_shares : PyVal) (name : String) : Except PyError PostReq := do
  validate_dividend_cash_action dividend_cash_action
  validate_icon icon
  validate_date end_date
  validate_instrument_shares instrument_shares
  pure { endpoint := "/equity/pies",
         body := [("dividendCashAction", .str dividend_cash_action), ("endDate", .str end_date),
                  ("goal", .int goal), ("icon", .str icon),
                  ("instrumentShares", instrument_shares), ("name", .str name)] }

/-- Source `pie_update`: same validators and order as `pie_create`. -/
def pie_update (id : Int) (dividend_cash_action : String) (end_date : String) (goal : Int)
    (icon : String) (instrument_shares : PyVal) (name : String) : Except PyError PostReq := do
  validate_dividend_cash_action dividend_cash_action
  validate_icon icon
  validate_date end_date
  validate_instrument_shares instrument_shares
  pure { endpoint := "equity/pies/" ++ toString id,
         body := [("dividendCashAction", .str dividend_cash_action), ("endDate", .str end_date),
                  ("goal", .int goal), ("icon", .str icon),
                  ("instrumentShares", instrument_shares), ("name", .str name)] }

/-- The `requests.HTTPError` raised by `raise_for_status`, carrying the
status code and the raw response body text. -/
structure HttpErr where
  status : Nat
  body : String
deriving DecidableEq

/-- An HTTP response as seen by `_process_response`: status code, raw text,
and the value `resp.json()` would decode to. -/
structure HttpResp where
  status_code : Nat
  text : String
  json : PyVal

/-- Source `_process_response`.  `requests.Response.raise_for_status` raises
`HTTPError` exactly when the status code is in 400–599; the handler logs
`resp.text` (the second component collects `logging.error` calls, in order)
and re-raises.  Otherwise the decoded body is returned and nothing is
logged. -/
def process_response (resp : HttpResp) : Except HttpErr PyVal × List String :=
  if 400 ≤ resp.status_code ∧ resp.status_code < 600 then
    (.error ⟨resp.status_code, resp.text⟩, [resp.text])
  else
    (.ok resp.json, [])

/-- A decoded page, as `_process_items` reads it: `response["items"]` and
`response.get("nextPagePath")` (`none` when the key is missing or its value
is JSON `null`, both of which are Python `None`). -/
structure Response (α : Type u) where
  items : List α
  nextPagePath : Option String

/-- Python truthiness of `response.get("nextPagePath")`: `None` and the
empty string are falsy, every other string is truthy. -/
def truthy_next (r : Response α) : Option String :=
  match r.nextPagePath with
  | some p => if p = "" then none else some p
  | none => none

/-- Source `_process_items`, with the follow-up GETs abstracted as
`get_url : path → Except HttpErr page` (an `_get_url` that raises is an
`Except.error`).  The source loop has no iteration bound, so the embedding
carries fuel: `none` means the loop was still running after `fuel`
follow-up requests, `some res` means the loop finished with `res` within
the fuel.  On success the result carries the accumulated items in
accumulation order together with the number of follow-up GET requests
issued; a raised `HTTPError` aborts the loop, discarding the accumulator. -/
def process_items (get_url : String → Except HttpErr (Response α)) :
    Nat → Response α → Option (Except HttpErr (List α × Nat))
  | fuel, r =>
    match truthy_next r with
    | none => some (.ok (r.items, 0))
    | some p =>
      match fuel with
      | 0 => none
      | f + 1 =>
        match get_url p with
        | .error e => some (.error e)
        | .ok r2 =>
          match process_items get_url f r2 with
          | none => none
          | some (.error e) => some (.error e)
          | some (.ok (items2, k)) => some (.ok (r.items ++ items2, k + 1))

/-- A GET request to a versioned endpoint, as built by `_get`. -/
structure GetReq where
  endpoint : String
  params : List (String × PyVal)

/-- Query parameters shared by `orders` and `dividends`: `cursor` and
`limit` always, `ticker` only when it is truthy (not `None`, not `""`). -/
def history_params (cursor : Int) (ticker : Option String) (limit : Int) :
    List (String × PyVal) :=
  [("cursor", .int cursor), ("limit", .int limit)] ++
    (match ticker with
     | some t => if t = "" then [] else [("ticker", .str t)]
     | none => [])

/-- A paginated call: the initial versioned GET (one request), then
`_process_items` over the follow-up raw-path GETs.  On success the counter
is the total number of GET requests issued, the initial one included. -/
def paginated_call (first : Except HttpErr (Response α))
    (get_url : String → Except HttpErr (Response α)) (fuel : Nat) :
    Option (Except HttpErr (List α × Nat)) :=
  match first with
  | .error e => some (.error e)
  | .ok r =>
    (process_items get_url fuel r).map (fun res => res.map (fun p => (p.1, p.2 + 1)))

/-- Source `orders`, over an abstract server (`server` answers the
versioned GET, `get_url` the raw-path pagination GETs). -/
def orders (server : GetReq → Except HttpErr (Response α))
    (get_url : String → Except HttpErr (Response α)) (fuel : Nat)
    (cursor : Int) (ticker : Option String) (limit : Int) :
    Option (Except HttpErr (List α × Nat)) :=
  paginated_call
    (server { endpoint := "equity/history/orders", params := history_params cursor ticker limit })
    get_url fuel

/-- Source `dividends`. -/
def dividends (server : GetReq → Except HttpErr (Response α))
    (get_url : String → Except HttpErr (Response α)) (fuel : Nat)
    (cursor : Int) (ticker : Option String) (limit : Int) :
    Option (Except HttpErr (List α × Nat)) :=
  paginated_call
    (server { endpoint := "history/dividends", params := history_params cursor ticker limit })
    get_url fuel

/-- Source `transactions`. -/
def transactions (server : GetReq → Except HttpErr (Response α))
    (get_url : String → Except HttpErr (Response α)) (fuel : Nat)
    (cursor : Int) (limit : Int) :
    Option (Except HttpErr (List α × Nat)) :=
  paginated_call
    (server { endpoint := "history/transactions",
              params := [("cursor", .int cursor), ("limit", .int limit)] })
    get_url fuel

/-- Concatenation of the items of a list of pages, first page first. -/
def concat_items : List (Response α) → List α
  | [] => []
  | r :: rest => r.items ++ concat_items rest

/-- The hypothesis of the pagination round-trip: starting from page `r`,
each page carries a non-empty `nextPagePath` that `get_url` resolves to the
next page of `rest`, and the `nextPagePath` of the last page is absent or null. -/
def chain_ok (get_url : String → Except HttpErr (Response α)) :
    Response α → List (Response α) → Prop
  | r, [] => r.nextPagePath = none
  | r, r2 :: rest =>
    ∃ p, r.nextPagePath = some p ∧ p ≠ "" ∧ get_url p = .ok r2 ∧ chain_ok get_url r2 rest

/-- A pagination sequence that fails: after the pages of `rest` (each
linked as in `chain_ok`), the last reached page links to a path on which
`get_url` raises `e`. -/
def chain_fails (get_url : String → Except HttpErr (Response α)) :
    Response α → List (Response α) → HttpErr → Prop
  | r, [], e => ∃ p, r.nextPagePath = some p ∧ p ≠ "" ∧ get_url p = .error e
  | r, r2 :: rest, e =>
    ∃ p, r.nextPagePath = some p ∧ p ≠ "" ∧ get_url p = .ok r2 ∧ chain_fails get_url r2 rest e

/-- The argument shape `_validate_instrument_shares` accepts: a non-empty
dict whose keys are all strings and whose values are all positive numbers. -/
def valid_shares_map (v : PyVal) : Prop :=
  match v with
  | .dict entries =>
    entries ≠ [] ∧ ∀ e ∈ entries, e.1.is_str = true ∧ e.2.is_number = true ∧ 0 < e.2.as_num
  | _ => False

@[simp] theorem except_bind_ok (a : α) (f : α → Except ε β) :
    (Except.ok a >>= f : Except ε β) = f a := rfl

@[simp] theorem except_bind_error (e : ε) (f : α → Except ε β) :
    (Except.error e >>= f : Except ε β) = .error e := rfl

theorem validate_icon_ok_iff (icon : String) :
    validate_icon icon = .ok () ↔ icon ∈ valid_icons := by
  unfold validate_icon
  split <;> simp_all

theorem validate_icon_error_of_not_mem (icon : String) (h : icon ∉ valid_icons) :
    validate_icon icon = .error (.valueError "icon must be one of valid_icons") := by
  simp [validate_icon, h]

theorem validate_entries_ok_iff (entries : List (PyVal × PyVal)) :
    validate_entries entries = .ok () ↔
      ∀ e ∈ entries, e.1.is_str = true ∧ e.2.is_number = true ∧ 0 < e.2.as_num := by
  induction entries with
  | nil => simp [validate_entries]
  | cons e rest ih =>
    obtain ⟨k, v⟩ := e
    unfold validate_entries
    split
    · simp_all
    · split
      · simp_all
      · split
        · rename_i hkey hnum hpos
          simp only [not_not] at hkey hnum
          simp only [List.mem_cons, forall_eq_or_imp]
          constructor
          · intro h
            exact absurd h (by simp)
          · rintro ⟨⟨-, -, hp⟩, -⟩
            exact absurd hpos (by simpa using hp)
        · rename_i hkey hnum hpos
          simp only [not_not] at hkey hnum
          rw [not_le] at hpos
          simp [ih, hkey, hnum, hpos]

theorem validate_instrument_shares_ok_iff (v : PyVal) :
    validate_instrument_shares v = .ok () ↔ valid_shares_map v := by
  cases v <;> simp [validate_instrument_shares, valid_shares_map]
  rename_i entries
  cases entries with
  | nil => simp [validate_entries]
  | cons e rest =>
    simp only [List.isEmpty_cons, if_neg Bool.false_ne_true, validate_entries_ok_iff]
    constructor
    · exact fun h => ⟨by simp, fun a b hab => h (a, b) hab⟩
    · exact fun h p hp => h.2 p.1 p.2 hp

theorem validate_instrument_shares_error (v : PyVal) (h : ¬ valid_shares_map v) :
    ∃ e, validate_instrument_shares v = .error e := by
  rcases hv : validate_instrument_shares v with e | u
  · exact ⟨e, rfl⟩
  · obtain ⟨⟩ := u
    exact absurd ((validate_instrument_shares_ok_iff v).mp hv) h

/-- C2: constructing the client with `demo = true` and with `demo = false`
yields the same host, the live base URL; the demo flag never produces a
distinct demo endpoint. -/
theorem init_host_always_live :
    (∀ demo, init_host demo = "https://live.trading212.com") ∧
      init_host true = init_host false :=
  ⟨fun demo => by cases demo <;> rfl, rfl⟩

/-- C9: a page whose `nextPagePath` is missing, `null`, or the empty string
(all falsy in Python) ends the pagination loop: `_process_items` returns
just the items of that page and issues no further request. -/
theorem process_items_stops_on_falsy (get_url : String → Except HttpErr (Response α))
    (fuel : Nat) (r : Response α)
    (h : r.nextPagePath = none ∨ r.nextPagePath = some "") :
    process_items get_url fuel r = some (.ok (r.items, 0)) := by
  have ht : truthy_next r = none := by
    rcases h with h | h <;> simp [truthy_next, h]
  unfold process_items
  rw [ht]

/-- C9 witness: a page carrying `nextPagePath = ""` ends the aggregate even
though a further GET would fail. -/
theorem process_items_stops_on_falsy_witness :
    process_items (fun _ => .error ⟨500, "boom"⟩) 3
      ({ items := ["x"], nextPagePath := some "" } : Response String) =
      some (.ok (["x"], 0)) :=
  process_items_stops_on_falsy _ 3 _ (Or.inr rfl)

/-- C4: every `time_validity` outside GTC and DAY makes the limit, stop and
stop-limit order methods fail with the `ValueError` of the validator before any
request value is produced, and every `time_validity` in GTC and DAY passes
the validator. -/
theorem time_validity_gating (ticker : String) (quantity : Int)
    (limit_price stop_price : ℚ) (tv : String)
    (h : tv ∉ (["GTC", "DAY"] : List String)) :
    equity_order_place_limit ticker quantity limit_price tv =
        .error (.valueError "time_validity must be one of GTC or DAY") ∧
      equity_order_place_stop ticker quantity stop_price tv =
        .error (.valueError "time_validity must be one of GTC or DAY") ∧
      equity_order_place_stop_limit ticker quantity stop_price limit_price tv =
        .error (.valueError "time_validity must be one of GTC or DAY") ∧
      ∀ tv2 ∈ (["GTC", "DAY"] : List String), validate_time_validity tv2 = .ok () := by
  have hv : validate_time_validity tv =
      .error (.valueError "time_validity must be one of GTC or DAY") := by
    simp [validate_time_validity, h]
  refine ⟨?_, ?_, ?_, ?_⟩
  · simp [equity_order_place_limit, hv]
  · simp [equity_order_place_stop, hv]
  · simp [equity_order_place_stop_limit, hv]
  · intro tv2 h2
    simp [validate_time_validity, h2]

/-- C4 witness: `time_validity = "FOO"` is rejected by all three methods,
and GTC and DAY pass the validator. -/
theorem time_validity_gating_witness :
    equity_order_place_limit "AAPL" 1 10 "FOO" =
        .error (.valueError "time_validity must be one of GTC or DAY") ∧
      equity_order_place_stop "AAPL" 1 9 "FOO" =
        .error (.valueError "time_validity must be one of GTC or DAY") ∧
      equity_order_place_stop_limit "AAPL" 1 9 10 "FOO" =
        .error (.valueError "time_validity must be one of GTC or DAY") ∧
      ∀ tv2 ∈ (["GTC", "DAY"] : List String), validate_time_validity tv2 = .ok () :=
  time_validity_gating "AAPL" 1 10 9 "FOO" (by decide)

/-- C7 counterexample: the 304 status is not 2xx, yet `_process_response`
returns the decoded body and logs nothing, because `raise_for_status` only
raises for statuses in 400–599; so a non-2xx response does not always raise
a typed HTTP error. -/
theorem process_response_304_returns_body :
    process_response { status_code := 304, text := "not modified", json := .str "cached" } =
      (.ok (.str "cached"), []) := rfl

/-- C7 amended: `_process_response` raises the typed `HTTPError`, carrying
the status code and raw body and logging the body first, exactly for
statuses in 400–599; every other response (in particular every 2xx) yields
the decoded body with nothing logged, and no value is returned alongside an
error. -/
theorem process_response_spec (resp : HttpResp) :
    (400 ≤ resp.status_code ∧ resp.status_code < 600 →
        process_response resp = (.error ⟨resp.status_code, resp.text⟩, [resp.text])) ∧
      (¬ (400 ≤ resp.status_code ∧ resp.status_code < 600) →
        process_response resp = (.ok resp.json, [])) ∧
      (200 ≤ resp.status_code ∧ resp.status_code < 300 →
        process_response resp = (.ok resp.json, [])) := by
  refine ⟨fun h => ?_, fun h => ?_, fun h => ?_⟩
  · simp [process_response, h]
  · simp [process_response, h]
  · have h2 : ¬ (400 ≤ resp.status_code ∧ resp.status_code < 600) := by omega
    simp [process_response, h2]

/-- C7 witness: a 401 response raises the error carrying status 401 and the
body, logged once; a 200 response returns its decoded body. -/
theorem process_response_spec_witness :
    process_response { status_code := 401, text := "unauthorized", json := .none_ } =
        (.error ⟨401, "unauthorized"⟩, ["unauthorized"]) ∧
      process_response { status_code := 200, text := "raw", json := .str "payload" } =
        (.ok (.str "payload"), []) :=
  ⟨(process_response_spec _).1 (by decide), (process_response_spec _).2.2 (by decide)⟩

/-- C10: for any key of length at least 4, the repr of a client constructed
with either `demo` value shows only the last four key characters after the
mask and reports `demo=False`, because the stored host is always the live
URL and is compared against the demo URL. -/
theorem repr_masks_key_and_demo_false (api_key : String) (demo : Bool)
    (h : 4 ≤ api_key.toList.length) :
    trading212_repr api_key demo =
        "Trading212(api_key=****" ++ take_last4 api_key ++ (", demo=" ++ ("False" ++ ")")) ∧
      (take_last4 api_key).toList.length = 4 := by
  constructor
  · cases demo <;> rfl
  · show ((api_key.toList.drop (api_key.toList.length - 4))).length = 4
    rw [List.length_drop]
    omega

/-- C10 witness: an eight-character key with `demo = true` is rendered with
only its last four characters and `demo=False`. -/
theorem repr_masks_key_witness :
    trading212_repr "abcdefgh" true = "Trading212(api_key=****efgh, demo=False)" :=
  (repr_masks_key_and_demo_false "abcdefgh" true (by decide)).1.trans (by rfl)

theorem days_in_month_le_31 (y m : Nat) : days_in_month y m ≤ 31 := by
  unfold days_in_month
  split
  · split <;> omega
  · split <;> omega

theorem digit_run_cons_digit (c : Char) (cs : List Char) (h : c.isDigit = true) :
    digit_run (c :: cs) = (c :: (digit_run cs).1, (digit_run cs).2) := by
  rw [digit_run, if_pos h]

theorem digit_run_cons_nondigit (c : Char) (cs : List Char) (h : c.isDigit = false) :
    digit_run (c :: cs) = ([], c :: cs) := by
  rw [digit_run, if_neg (by simp [h])]

theorem digit_run_digits_then (ds : List Char) (c : Char) (cs : List Char)
    (hds : ds.all Char.isDigit = true) (hc : c.isDigit = false) :
    digit_run (ds ++ c :: cs) = (ds, c :: cs) := by
  induction ds with
  | nil => simpa using digit_run_cons_nondigit c cs hc
  | cons d ds ih =>
    simp only [List.all_cons, Bool.and_eq_true] at hds
    rw [List.cons_append, digit_run_cons_digit d _ hds.1, ih hds.2]

theorem strict_implies_strptime (s : String) (h : spec_date_format_strict s = true) :
    (strptime_date s).isSome = true := by
  unfold spec_date_format_strict at h
  split at h
  case h_2 => simp at h
  rename_i y1 y2 y3 y4 m1 m2 d1 d2 hr1 hr2 i1 i2 sc1 sc2 heq
  simp only [Bool.and_eq_true, List.all_cons, List.all_nil, Bool.and_true,
    decide_eq_true_eq] at h
  obtain ⟨⟨hy1, hy2, hy3, hy4, hm1, hm2, hd1, hd2, hh1, hh2, hi1, hi2, hs1, hs2⟩, hnum⟩ := h
  have e1 : digit_run s.toList =
      ([y1, y2, y3, y4],
        '-' :: [m1, m2, '-', d1, d2, 'T', hr1, hr2, ':', i1, i2, ':', sc1, sc2, 'Z']) := by
    rw [heq]
    exact digit_run_digits_then [y1, y2, y3, y4] '-' _ (by simp [hy1, hy2, hy3, hy4]) (by decide)
  have e2 : digit_run [m1, m2, '-', d1, d2, 'T', hr1, hr2, ':', i1, i2, ':', sc1, sc2, 'Z'] =
      ([m1, m2], '-' :: [d1, d2, 'T', hr1, hr2, ':', i1, i2, ':', sc1, sc2, 'Z']) :=
    digit_run_digits_then [m1, m2] '-' _ (by simp [hm1, hm2]) (by decide)
  have e3 : digit_run [d1, d2, 'T', hr1, hr2, ':', i1, i2, ':', sc1, sc2, 'Z'] =
      ([d1, d2], 'T' :: [hr1, hr2, ':', i1, i2, ':', sc1, sc2, 'Z']) :=
    digit_run_digits_then [d1, d2] 'T' _ (by simp [hd1, hd2]) (by decide)
  have e4 : digit_run [hr1, hr2, ':', i1, i2, ':', sc1, sc2, 'Z'] =
      ([hr1, hr2], ':' :: [i1, i2, ':', sc1, sc2, 'Z']) :=
    digit_run_digits_then [hr1, hr2] ':' _ (by simp [hh1, hh2]) (by decide)
  have e5 : digit_run [i1, i2, ':', sc1, sc2, 'Z'] = ([i1, i2], ':' :: [sc1, sc2, 'Z']) :=
    digit_run_digits_then [i1, i2] ':' _ (by simp [hi1, hi2]) (by decide)
  have e6 : digit_run [sc1, sc2, 'Z'] = ([sc1, sc2], ['Z']) :=
    digit_run_digits_then [sc1, sc2] 'Z' [] (by simp [hs1, hs2]) (by decide)
  unfold strptime_date
  simp only [e1, e2, e3, e4, e5, e6, true_or, if_true]
  split
  · rfl
  · rename_i hc
    exfalso
    apply hc
    have h31 := days_in_month_le_31 (nat_of_digits [y1, y2, y3, y4]) (nat_of_digits [m1, m2])
    simp [month_group_ok, day_group_ok, hour_group_ok, minute_group_ok, second_group_ok]
    omega

/-- C5 counterexample: `_validate_date` accepts "2024-1-01T00:00:00Z", a
string that is not of the fixed-width format `YYYY-MM-DDTHH:MM:SSZ` (its
month field has one digit), because `strptime` also matches one-digit
month, day, hour, minute and second fields; so the validator does not
accept exactly the strings of that format. -/
theorem validate_date_accepts_nonstrict :
    validate_date "2024-1-01T00:00:00Z" = .ok () ∧
      spec_date_format_strict "2024-1-01T00:00:00Z" = false :=
  ⟨rfl, rfl⟩

/-- C5 amended: `_validate_date` accepts a string exactly when CPython
`strptime` with format `%Y-%m-%dT%H:%M:%SZ` parses it — four year digits,
one- or two-digit month, day, hour, minute and second fields in range, a
valid calendar day, case-insensitive `T` and `Z` literals — and raises the
fixed `ValueError` otherwise; every fixed-width `YYYY-MM-DDTHH:MM:SSZ`
string is accepted, in particular "2024-01-01T00:00:00Z" is accepted and
"2024-01-01" is rejected. -/
theorem validate_date_strptime_spec :
    (∀ s, validate_date s = .ok () ↔ (strptime_date s).isSome = true) ∧
      (∀ s, (strptime_date s).isSome = false →
        validate_date s =
          .error (.valueError "Incorrect date format, should be YYYY-MM-DDTHH:MM:SSZ")) ∧
      (∀ s, spec_date_format_strict s = true → validate_date s = .ok ()) ∧
      validate_date "2024-01-01T00:00:00Z" = .ok () ∧
      validate_date "2024-01-01" =
        .error (.valueError "Incorrect date format, should be YYYY-MM-DDTHH:MM:SSZ") := by
  refine ⟨fun s => ?_, fun s h => ?_, fun s h => ?_, rfl, rfl⟩
  · unfold validate_date
    cases hs : strptime_date s <;> simp [hs]
  · unfold validate_date
    cases hs : strptime_date s
    · rfl
    · rw [hs] at h
      simp at h
  · have hsome := strict_implies_strptime s h
    unfold validate_date
    cases hs : strptime_date s
    · rw [hs] at hsome
      simp at hsome
    · rfl

/-- C5 witness: a fixed-width string is accepted through the
strict-format conjunct, and a string `strptime` cannot parse (February 30)
is rejected with the fixed message. -/
theorem validate_date_strptime_spec_witness :
    validate_date "2026-02-28T12:30:45Z" = .ok () ∧
      validate_date "2026-02-30T00:00:00Z" =
        .error (.valueError "Incorrect date format, should be YYYY-MM-DDTHH:MM:SSZ") :=
  ⟨validate_date_strptime_spec.2.2.1 "2026-02-28T12:30:45Z" (by decide),
    validate_date_strptime_spec.2.1 "2026-02-30T00:00:00Z" (by decide)⟩

theorem process_items_last (get_url : String → Except HttpErr (Response α))
    (fuel : Nat) (r : Response α) (h : truthy_next r = none) :
    process_items get_url fuel r = some (.ok (r.items, 0)) := by
  unfold process_items
  rw [h]

theorem process_items_step (get_url : String → Except HttpErr (Response α))
    (f : Nat) (r r2 : Response α) (p : String)
    (h : truthy_next r = some p) (hg : get_url p = .ok r2) :
    process_items get_url (f + 1) r =
      match process_items get_url f r2 with
      | none => none
      | some (.error e) => some (.error e)
      | some (.ok (items2, k)) => some (.ok (r.items ++ items2, k + 1)) := by
  conv_lhs => rw [process_items]
  simp only [h, hg]

theorem process_items_step_err (get_url : String → Except HttpErr (Response α))
    (f : Nat) (r : Response α) (p : String) (e : HttpErr)
    (h : truthy_next r = some p) (hg : get_url p = .error e) :
    process_items get_url (f + 1) r = some (.error e) := by
  conv_lhs => rw [process_items]
  simp only [h, hg]

theorem truthy_next_of_link (r : Response α) (p : String)
    (hp : r.nextPagePath = some p) (hne : p ≠ "") : truthy_next r = some p := by
  simp [truthy_next, hp, hne]

theorem process_items_chain (get_url : String → Except HttpErr (Response α))
    (r : Response α) (rest : List (Response α)) (h : chain_ok get_url r rest)
    (fuel : Nat) (hf : rest.length ≤ fuel) :
    process_items get_url fuel r = some (.ok (concat_items (r :: rest), rest.length)) := by
  induction rest generalizing r fuel with
  | nil =>
    simp only [chain_ok] at h
    rw [process_items_last get_url fuel r (by simp [truthy_next, h])]
    simp [concat_items]
  | cons r2 rest ih =>
    obtain ⟨p, hp, hne, hget, hchain⟩ := h
    cases fuel with
    | zero => exact absurd hf (by simp)
    | succ f =>
      rw [process_items_step get_url f r r2 p (truthy_next_of_link r p hp hne) hget,
        ih r2 hchain f (by simpa using hf)]
      simp [concat_items]

theorem process_items_fail (get_url : String → Except HttpErr (Response α))
    (r : Response α) (rest : List (Response α)) (e : HttpErr)
    (h : chain_fails get_url r rest e) (fuel : Nat) (hf : rest.length + 1 ≤ fuel) :
    process_items get_url fuel r = some (.error e) := by
  induction rest generalizing r fuel with
  | nil =>
    obtain ⟨p, hp, hne, hget⟩ := h
    cases fuel with
    | zero => exact absurd hf (by simp)
    | succ f =>
      exact process_items_step_err get_url f r p e (truthy_next_of_link r p hp hne) hget
  | cons r2 rest ih =>
    obtain ⟨p, hp, hne, hget, hrest⟩ := h
    cases fuel with
    | zero => exact absurd hf (by simp)
    | succ f =>
      rw [process_items_step get_url f r r2 p (truthy_next_of_link r p hp hne) hget,
        ih r2 hrest f (by simpa using hf)]

/-- C1: over any server whose pages form a finite linked chain — each page
carrying a non-empty `nextPagePath` resolved by `get_url` to the next page,
the `nextPagePath` of the last page absent or null — `orders`, `dividends` and
`transactions` return the concatenation of the item lists of the pages in page
order (no deduplication, no re-sorting), and the whole call issues exactly
one request per page: the initial versioned GET plus one follow-up GET per
page after the first. -/
theorem paginated_ops_concat (server : GetReq → Except HttpErr (Response α))
    (get_url : String → Except HttpErr (Response α)) (r : Response α)
    (rest : List (Response α)) (fuel : Nat) (cursor : Int) (ticker : Option String) (limit : Int)
    (hchain : chain_ok get_url r rest) (hfuel : rest.length ≤ fuel)
    (h1 : server ⟨"equity/history/orders", history_params cursor ticker limit⟩ = .ok r)
    (h2 : server ⟨"history/dividends", history_params cursor ticker limit⟩ = .ok r)
    (h3 : server ⟨"history/transactions", [("cursor", .int cursor), ("limit", .int limit)]⟩ = .ok r) :
    orders server get_url fuel cursor ticker limit =
        some (.ok (concat_items (r :: rest), rest.length + 1)) ∧
      dividends server get_url fuel cursor ticker limit =
        some (.ok (concat_items (r :: rest), rest.length + 1)) ∧
      transactions server get_url fuel cursor limit =
        some (.ok (concat_items (r :: rest), rest.length + 1)) := by
  have hp := process_items_chain get_url r rest hchain fuel hfuel
  refine ⟨?_, ?_, ?_⟩ <;>
    simp [orders, dividends, transactions, paginated_call, h1, h2, h3, hp, Except.map]

/-- The first mock page of the round-trip example: items `[1, 2]`, next
page at `/p2`. -/
def page_a : Response Nat := { items := [1, 2], nextPagePath := some "/p2" }

/-- The second and last mock page: items `[3]`, no next page. -/
def page_b : Response Nat := { items := [3], nextPagePath := none }

/-- A mock raw-path GET serving `page_b` at `/p2`. -/
def mock_get_url : String → Except HttpErr (Response Nat) :=
  fun p => if p = "/p2" then .ok page_b else .error ⟨404, "not found"⟩

/-- C1 witness: the round-trip of the spec — page 1 holds `[1, 2]` and
points at `/p2`, page 2 holds `[3]` and is last — returns `[1, 2, 3]` in
order with exactly 2 requests, for all three paginated operations. -/
theorem paginated_ops_concat_witness :
    orders (fun _ => .ok page_a) mock_get_url 1 0 none 50 = some (.ok ([1, 2, 3], 2)) ∧
      dividends (fun _ => .ok page_a) mock_get_url 1 0 none 50 = some (.ok ([1, 2, 3], 2)) ∧
      transactions (fun _ => .ok page_a) mock_get_url 1 0 50 = some (.ok ([1, 2, 3], 2)) := by
  have h := paginated_ops_concat (fun _ => .ok page_a) mock_get_url page_a [page_b] 1 0 none 50
    ⟨"/p2", rfl, by decide, rfl, rfl⟩ (by decide) rfl rfl rfl
  exact ⟨h.1.trans rfl, h.2.1.trans rfl, h.2.2.trans rfl⟩

/-- C8: if, after a chain of successfully linked pages, fetching the next
page raises an `HTTPError`, then `_process_items` and the whole `orders`,
`dividends` and `transactions` calls fail with exactly that error: the
items accumulated from earlier pages are discarded and no partial aggregate
is returned. -/
theorem paginated_ops_fail (server : GetReq → Except HttpErr (Response α))
    (get_url : String → Except HttpErr (Response α)) (r : Response α)
    (rest : List (Response α)) (e : HttpErr) (fuel : Nat) (cursor : Int)
    (ticker : Option String) (limit : Int)
    (hchain : chain_fails get_url r rest e) (hfuel : rest.length + 1 ≤ fuel)
    (h1 : server ⟨"equity/history/orders", history_params cursor ticker limit⟩ = .ok r)
    (h2 : server ⟨"history/dividends", history_params cursor ticker limit⟩ = .ok r)
    (h3 : server ⟨"history/transactions", [("cursor", .int cursor), ("limit", .int limit)]⟩ = .ok r) :
    process_items get_url fuel r = some (.error e) ∧
      orders server get_url fuel cursor ticker limit = some (.error e) ∧
      dividends server get_url fuel cursor ticker limit = some (.error e) ∧
      transactions server get_url fuel cursor limit = some (.error e) := by
  have hp := process_items_fail get_url r rest e hchain fuel hfuel
  refine ⟨hp, ?_, ?_, ?_⟩ <;>
    simp [orders, dividends, transactions, paginated_call, h1, h2, h3, hp, Except.map]

/-- A mock raw-path GET that always raises a 500 error. -/
def fail_get_url : String → Except HttpErr (Response Nat) :=
  fun _ => .error ⟨500, "server error"⟩

/-- C8 witness: the first page holds `[1, 2]` and points at `/p2`, whose
fetch raises a 500; the already-accumulated `[1, 2]` is discarded and every
paginated call fails with exactly that error. -/
theorem paginated_ops_fail_witness :
    process_items fail_get_url 1 page_a = some (.error ⟨500, "server error"⟩) ∧
      orders (fun _ => .ok page_a) fail_get_url 1 0 none 50 = some (.error ⟨500, "server error"⟩) ∧
      dividends (fun _ => .ok page_a) fail_get_url 1 0 none 50 = some (.error ⟨500, "server error"⟩) ∧
      transactions (fun _ => .ok page_a) fail_get_url 1 0 50 = some (.error ⟨500, "server error"⟩) :=
  paginated_ops_fail (fun _ => .ok page_a) fail_get_url page_a [] ⟨500, "server error"⟩ 1 0 none 50
    ⟨"/p2", rfl, by decide, rfl⟩ (by decide) rfl rfl rfl

/-- C3 counterexample: the set of icon names `_validate_icon` accepts does
not have 36 elements: no 36-element set agrees with the validator, because
the source list `valid_icons` holds 37 distinct names. -/
theorem no_36_element_icon_set :
    ¬ ∃ S : Finset String, S.card = 36 ∧ ∀ icon, validate_icon icon = .ok () ↔ icon ∈ S := by
  rintro ⟨S, hcard, hiff⟩
  have hS : S = valid_icons.toFinset := by
    apply Finset.ext
    intro i
    rw [← hiff i, validate_icon_ok_iff, List.mem_toFinset]
  rw [hS] at hcard
  have h37 : valid_icons.toFinset.card = 37 := by decide
  omega

/-- C3 amended: the icon validator accepts exactly the fixed closed set of
the 37 distinct names of `valid_icons` and rejects every other string with
a `ValueError`; whenever the preceding dividend-cash-action check passes,
an out-of-set icon makes both `pie_create` and `pie_update` fail with that
`ValueError` before any request value is produced, whatever the remaining
arguments are. -/
theorem validate_icon_closed_set :
    valid_icons.Nodup ∧ valid_icons.length = 37 ∧
      (∀ icon, validate_icon icon = .ok () ↔ icon ∈ valid_icons) ∧
      ∀ dca ed goal icon shares name id,
        validate_dividend_cash_action dca = .ok () → icon ∉ valid_icons →
          pie_create dca ed goal icon shares name =
              .error (.valueError "icon must be one of valid_icons") ∧
            pie_update id dca ed goal icon shares name =
              .error (.valueError "icon must be one of valid_icons") := by
  refine ⟨by decide, by decide, validate_icon_ok_iff, ?_⟩
  intro dca ed goal icon shares name id hdca hicon
  have hv := validate_icon_error_of_not_mem icon hicon
  constructor
  · simp [pie_create, hdca, hv]
  · simp [pie_update, hdca, hv]

/-- C3 witness: with a valid dividend cash action, the out-of-set icon
name Rocket is rejected by both pie methods. -/
theorem validate_icon_closed_set_witness :
    pie_create "REINVEST" "2024-01-01T00:00:00Z" 0 "Rocket" .none_ "p" =
        .error (.valueError "icon must be one of valid_icons") ∧
      pie_update 1 "REINVEST" "2024-01-01T00:00:00Z" 0 "Rocket" .none_ "p" =
        .error (.valueError "icon must be one of valid_icons") :=
  validate_icon_closed_set.2.2.2 "REINVEST" "2024-01-01T00:00:00Z" 0 "Rocket" .none_ "p" 1
    rfl (by decide)

/-- C6: `_validate_instrument_shares` accepts exactly the non-empty dicts
whose keys are all strings and whose values are all positive numbers, and
whenever the three preceding validators pass, any other `instrument_shares`
argument makes `pie_create` and `pie_update` fail with a local error before
any request value is produced — the whole map is rejected, never a part of
it. -/
theorem instrument_shares_fail_fast (dca ed : String) (goal : Int) (icon : String)
    (shares : PyVal) (name : String) (id : Int)
    (h1 : validate_dividend_cash_action dca = .ok ())
    (h2 : validate_icon icon = .ok ())
    (h3 : validate_date ed = .ok ())
    (h4 : ¬ valid_shares_map shares) :
    (∀ v, validate_instrument_shares v = .ok () ↔ valid_shares_map v) ∧
      (∃ e, pie_create dca ed goal icon shares name = .error e) ∧
      ∃ e, pie_update id dca ed goal icon shares name = .error e := by
  obtain ⟨e, he⟩ := validate_instrument_shares_error shares h4
  refine ⟨validate_instrument_shares_ok_iff, ⟨e, ?_⟩, ⟨e, ?_⟩⟩
  · simp [pie_create, h1, h2, h3, he]
  · simp [pie_update, h1, h2, h3, he]

/-- C6 witness: the empty dict, a non-string key, a non-numeric value and a
zero share count are each rejected by both pie methods with all other
arguments valid. -/
theorem instrument_shares_fail_fast_witness :
    ((∃ e, pie_create "REINVEST" "2024-01-01T00:00:00Z" 1 "Home" (.dict []) "p" = .error e) ∧
        ∃ e, pie_update 1 "REINVEST" "2024-01-01T00:00:00Z" 1 "Home" (.dict []) "p" = .error e) ∧
      ((∃ e, pie_create "REINVEST" "2024-01-01T00:00:00Z" 1 "Home"
            (.dict [(.int 7, .int 1)]) "p" = .error e) ∧
        ∃ e, pie_update 1 "REINVEST" "2024-01-01T00:00:00Z" 1 "Home"
            (.dict [(.int 7, .int 1)]) "p" = .error e) ∧
      ((∃ e, pie_create "REINVEST" "2024-01-01T00:00:00Z" 1 "Home"
            (.dict [(.str "AAPL", .str "many")]) "p" = .error e) ∧
        ∃ e, pie_update 1 "REINVEST" "2024-01-01T00:00:00Z" 1 "Home"
            (.dict [(.str "AAPL", .str "many")]) "p" = .error e) ∧
      ((∃ e, pie_create "REINVEST" "2024-01-01T00:00:00Z" 1 "Home"
            (.dict [(.str "AAPL", .int 2), (.str "MSFT", .int 0)]) "p" = .error e) ∧
        ∃ e, pie_update 1 "REINVEST" "2024-01-01T00:00:00Z" 1 "Home"
            (.dict [(.str "AAPL", .int 2), (.str "MSFT", .int 0)]) "p" = .error e) :=
  ⟨(instrument_shares_fail_fast "REINVEST" "2024-01-01T00:00:00Z" 1 "Home" (.dict []) "p" 1
      rfl rfl rfl (by simp [valid_shares_map])).2,
    (instrument_shares_fail_fast "REINVEST" "2024-01-01T00:00:00Z" 1 "Home"
      (.dict [(.int 7, .int 1)]) "p" 1 rfl rfl rfl
      (by simp [valid_shares_map, PyVal.is_str])).2,
    (instrument_shares_fail_fast "REINVEST" "2024-01-01T00:00:00Z" 1 "Home"
      (.dict [(.str "AAPL", .str "many")]) "p" 1 rfl rfl rfl
      (by simp [valid_shares_map, PyVal.is_number])).2,
    (instrument_shares_fail_fast "REINVEST" "2024-01-01T00:00:00Z" 1 "Home"
      (.dict [(.str "AAPL", .int 2), (.str "MSFT", .int 0)]) "p" 1 rfl rfl rfl
      (by simp [valid_shares_map, PyVal.as_num])).2⟩


